import Mathlib

/-!
Verification of the physics core of the gravity-simulation repository
(src/main.go): the `Object` body type with its constructor `NewObject`,
force accumulation `AddForce`, and the integration/collision step `Update`.

The embedding is a shallow one over exact rationals: each Go function on
the body state is translated into a Lean function on a record with the
same fields, following the source line by line.  `mgl32.Vec3` becomes a
record of three rationals with componentwise addition and scalar
multiplication, matching `Vec3.Add` and `Vec3.Mul` of the mathgl library
as used by the source.
-/

/-- Shallow embedding of `mgl32.Vec3`: a 3-component vector. -/
structure Vec3 where
  x : ℚ
  y : ℚ
  z : ℚ
  deriving DecidableEq, Repr

/-- `Vec3.Add`: componentwise vector addition, as used by `o.Forces.Add(force)`
and the integration steps in `Update`. -/
def Vec3.add (a b : Vec3) : Vec3 :=
  ⟨a.x + b.x, a.y + b.y, a.z + b.z⟩

/-- `Vec3.Mul`: scalar multiplication, as used by `o.Forces.Mul(1.0 / o.Mass)`
and `...Mul(dt)` in `Update`. -/
def Vec3.mul (a : Vec3) (c : ℚ) : Vec3 :=
  ⟨a.x * c, a.y * c, a.z * c⟩

/-- The zero vector `mgl32.Vec3{0, 0, 0}`. -/
def Vec3.zero : Vec3 := ⟨0, 0, 0⟩

/-- Shallow embedding of the `Object` struct of src/main.go:
position, velocity, mass, accumulated forces and elasticity. -/
structure Object where
  Position   : Vec3
  Velocity   : Vec3
  Mass       : ℚ
  Forces     : Vec3
  Elasticity : ℚ
  deriving DecidableEq, Repr

/-- `NewObject` (src/main.go lines 32-40): constructs an object with the
given position, velocity, mass and elasticity, and zero accumulated force.
It performs no validation of its arguments. -/
def NewObject (position velocity : Vec3) (mass elasticity : ℚ) : Object :=
  { Position   := position
    Velocity   := velocity
    Mass       := mass
    Forces     := Vec3.zero
    Elasticity := elasticity }

/-- `Object.AddForce` (src/main.go lines 43-45): adds the force vector into
the accumulator field `Forces`. -/
def Object.AddForce (o : Object) (force : Vec3) : Object :=
  { o with Forces := o.Forces.add force }

/-- `Object.Update` (src/main.go lines 48-63), translated statement by
statement: acceleration from accumulated force and mass, velocity update,
position update, force reset, then the ground-collision clamp at y = -1.0
which reflects the vertical velocity scaled by the elasticity. -/
def Object.Update (o : Object) (dt : ℚ) : Object :=
  let acceleration := o.Forces.mul (1 / o.Mass)
  let velocity := o.Velocity.add (acceleration.mul dt)
  let position := o.Position.add (velocity.mul dt)
  let updated : Object := { o with Velocity := velocity, Position := position, Forces := Vec3.zero }
  if updated.Position.y < -1 then
    { updated with
        Position := ⟨updated.Position.x, -1, updated.Position.z⟩
        Velocity := ⟨updated.Velocity.x, -updated.Velocity.y * updated.Elasticity, updated.Velocity.z⟩ }
  else
    updated

/-- `Object.ModelMatrix` position handoff is out of scope; the helper below
names the velocity `Update` computes in its integration phase (steps 1-2 of
the spec), before the collision check. -/
def Object.integVelocity (o : Object) (dt : ℚ) : Vec3 :=
  o.Velocity.add ((o.Forces.mul (1 / o.Mass)).mul dt)

/-- The position `Update` computes in its integration phase (step 3 of the
spec), using the already-updated velocity, before the collision check. -/
def Object.integPosition (o : Object) (dt : ℚ) : Vec3 :=
  o.Position.add ((o.integVelocity dt).mul dt)

/-- The state of `Update` just after the force reset, before the
collision check. -/
def Object.integrated (o : Object) (dt : ℚ) : Object :=
  { o with
      Velocity := o.integVelocity dt
      Position := o.integPosition dt
      Forces := Vec3.zero }

/-- Unfolding lemma: `Update` is the integration phase followed by the
conditional ground clamp. -/
theorem Object.Update_eq (o : Object) (dt : ℚ) :
    o.Update dt =
      (if (o.integPosition dt).y < -1 then
        { o.integrated dt with
            Position := ⟨(o.integPosition dt).x, -1, (o.integPosition dt).z⟩
            Velocity := ⟨(o.integVelocity dt).x,
                        -(o.integVelocity dt).y * o.Elasticity,
                        (o.integVelocity dt).z⟩ }
      else o.integrated dt) := by
  simp only [Object.Update, Object.integrated, Object.integVelocity, Object.integPosition]

/-- Transcription of the spec's description of `update` (section 4.1,
steps 1 through 5), written from the spec's words: compute
acceleration = accumulatedForce / mass, add acceleration * dt to the
velocity, add the new velocity * dt to the position, reset the
accumulator to zero, then if position.y < groundLevel (-1.0) clamp
position.y to the ground and set velocity.y to -velocity.y * elasticity. -/
def updateSpec (o : Object) (dt : ℚ) : Object :=
  let acceleration : Vec3 := ⟨o.Forces.x / o.Mass, o.Forces.y / o.Mass, o.Forces.z / o.Mass⟩
  let v : Vec3 := ⟨o.Velocity.x + acceleration.x * dt,
                   o.Velocity.y + acceleration.y * dt,
                   o.Velocity.z + acceleration.z * dt⟩
  let p : Vec3 := ⟨o.Position.x + v.x * dt,
                   o.Position.y + v.y * dt,
                   o.Position.z + v.z * dt⟩
  if p.y < -1 then
    { Position := ⟨p.x, -1, p.z⟩
      Velocity := ⟨v.x, -v.y * o.Elasticity, v.z⟩
      Mass := o.Mass
      Forces := Vec3.zero
      Elasticity := o.Elasticity }
  else
    { Position := p
      Velocity := v
      Mass := o.Mass
      Forces := Vec3.zero
      Elasticity := o.Elasticity }

/-- C2: for every body state and every dt, `Update(dt)` performs exactly the
five spec steps in order: acceleration = accumulatedForce / mass, velocity
+= acceleration * dt, position += (updated) velocity * dt, reset of the
force accumulator to zero, then the ground clamp that sets position.y to
-1.0 and velocity.y to -velocity.y * elasticity when position.y < -1.0. -/
theorem update_follows_spec_steps (o : Object) (dt : ℚ) :
    o.Update dt = updateSpec o dt := by
  simp only [Object.Update, updateSpec, Vec3.add, Vec3.mul, Vec3.zero, div_eq_mul_inv,
    one_mul, mul_one, mul_comm]

/-- If the collision check does not fire, `Update` returns the state of the
integration phase unchanged. -/
theorem Object.Update_no_clamp (o : Object) (dt : ℚ)
    (h : ¬ (o.integPosition dt).y < -1) :
    o.Update dt = o.integrated dt := by
  rw [Object.Update_eq, if_neg h]

/-- With a zero force accumulator the integration phase leaves the velocity
unchanged. -/
theorem integVelocity_zero_force (o : Object) (dt : ℚ)
    (hF : o.Forces = Vec3.zero) :
    o.integVelocity dt = o.Velocity := by
  simp [Object.integVelocity, hF, Vec3.zero, Vec3.mul, Vec3.add]

/-- C3: when the integrated position is below the ground at the collision
check, `Update` clamps position.y to -1.0 exactly and sets velocity.y to
minus the integrated velocity.y times the elasticity; with elasticity 0 the
vertical velocity becomes 0 and with elasticity 1 it is exactly negated. -/
theorem update_ground_collision (o : Object) (dt : ℚ)
    (h : (o.integPosition dt).y < -1) :
    (o.Update dt).Position.y = -1 ∧
    (o.Update dt).Velocity.y = -(o.integVelocity dt).y * o.Elasticity ∧
    (o.Elasticity = 0 → (o.Update dt).Velocity.y = 0) ∧
    (o.Elasticity = 1 → (o.Update dt).Velocity.y = -(o.integVelocity dt).y) := by
  rw [Object.Update_eq, if_pos h]
  refine ⟨rfl, rfl, ?_, ?_⟩ <;> intro he <;> simp [he]

/-- Witness for C3 at a concrete falling body. -/
theorem update_ground_collision_witness :
    ((Object.mk ⟨0, 0, 0⟩ ⟨0, -3, 0⟩ 1 ⟨0, 0, 0⟩ (1/2)).Update 1).Position.y = -1 ∧
    ((Object.mk ⟨0, 0, 0⟩ ⟨0, -3, 0⟩ 1 ⟨0, 0, 0⟩ (1/2)).Update 1).Velocity.y =
      -((Object.mk ⟨0, 0, 0⟩ ⟨0, -3, 0⟩ 1 ⟨0, 0, 0⟩ (1/2)).integVelocity 1).y * (1/2) ∧
    ((1:ℚ)/2 = 0 →
      ((Object.mk ⟨0, 0, 0⟩ ⟨0, -3, 0⟩ 1 ⟨0, 0, 0⟩ (1/2)).Update 1).Velocity.y = 0) ∧
    ((1:ℚ)/2 = 1 →
      ((Object.mk ⟨0, 0, 0⟩ ⟨0, -3, 0⟩ 1 ⟨0, 0, 0⟩ (1/2)).Update 1).Velocity.y =
        -((Object.mk ⟨0, 0, 0⟩ ⟨0, -3, 0⟩ 1 ⟨0, 0, 0⟩ (1/2)).integVelocity 1).y) :=
  update_ground_collision (Object.mk ⟨0, 0, 0⟩ ⟨0, -3, 0⟩ 1 ⟨0, 0, 0⟩ (1/2)) 1
    (by norm_num [Object.integPosition, Object.integVelocity, Vec3.add, Vec3.mul])

/-- C6: after every call to `Update` the force accumulator is the zero
vector, for every starting state and every dt. -/
theorem update_resets_forces (o : Object) (dt : ℚ) :
    (o.Update dt).Forces = Vec3.zero := by
  rw [Object.Update_eq]
  split <;> rfl

/-- C7: force accumulation is additive: adding A then B and updating gives
exactly the same final state as adding A + B once and updating. -/
theorem addForce_additive (o : Object) (A B : Vec3) (dt : ℚ) :
    ((o.AddForce A).AddForce B).Update dt = (o.AddForce (A.add B)).Update dt := by
  have h : (o.AddForce A).AddForce B = o.AddForce (A.add B) := by
    simp [Object.AddForce, Vec3.add, add_assoc]
  rw [h]

/-- C8: frame conditions: `AddForce` changes only the force accumulator,
leaving position, velocity, mass and elasticity intact; `Update` never
changes mass or elasticity. -/
theorem frame_conditions (o : Object) (f : Vec3) (dt : ℚ) :
    (o.AddForce f).Position = o.Position ∧
    (o.AddForce f).Velocity = o.Velocity ∧
    (o.AddForce f).Mass = o.Mass ∧
    (o.AddForce f).Elasticity = o.Elasticity ∧
    (o.Update dt).Mass = o.Mass ∧
    (o.Update dt).Elasticity = o.Elasticity := by
  refine ⟨rfl, rfl, rfl, rfl, ?_, ?_⟩ <;> (rw [Object.Update_eq]; split <;> rfl)

/-- C9: the constructor always starts the force accumulator at the zero
vector, whatever the initial position, velocity, mass and elasticity. -/
theorem newObject_zero_forces (p v : Vec3) (m e : ℚ) :
    (NewObject p v m e).Forces = Vec3.zero := rfl

/-- C10: the ground invariant at tick boundaries: after any `Update` the
position.y is at least -1.0; `AddForce` does not move the body, so the
post-update state of a whole tick (AddForce then Update) also satisfies
position.y >= -1.0. -/
theorem update_ground_invariant (o : Object) (f : Vec3) (dt : ℚ) :
    -1 ≤ (o.Update dt).Position.y ∧
    (o.AddForce f).Position = o.Position ∧
    -1 ≤ ((o.AddForce f).Update dt).Position.y := by
  have key : ∀ b : Object, -1 ≤ (b.Update dt).Position.y := by
    intro b
    rw [Object.Update_eq]
    split
    · exact le_refl (-1)
    · next h => exact not_lt.mp h
  exact ⟨key o, rfl, key (o.AddForce f)⟩

/-- C1: contrary to the spec's requirement that construction reject
non-positive mass, `NewObject` performs no validation: called with mass 0
or mass -1 it still succeeds and returns a fully formed body carrying that
mass, which `Update` then divides by at every tick. -/
theorem newObject_accepts_nonpositive_mass :
    NewObject ⟨0, 0, 0⟩ ⟨0, 0, 0⟩ 0 (4/5) =
      { Position := ⟨0, 0, 0⟩, Velocity := ⟨0, 0, 0⟩, Mass := 0,
        Forces := ⟨0, 0, 0⟩, Elasticity := 4/5 } ∧
    (NewObject ⟨0, 0, 0⟩ ⟨0, 0, 0⟩ (-1) (4/5)).Mass = -1 :=
  ⟨rfl, rfl⟩

/-- A body falling fast enough to cross the ground plane in one step:
position (0,0,0), velocity (0,-200,0), mass 1, no accumulated force,
elasticity 1. -/
def fallingBody : Object := ⟨⟨0, 0, 0⟩, ⟨0, -200, 0⟩, 1, ⟨0, 0, 0⟩, 1⟩

/-- Counterexample to C4 as stated: with dt = 1 > 0 and a zero force
accumulator, `Update` does not leave the velocity unchanged and does not
advance the position by velocity * dt, because the ground clamp fires. -/
theorem update_zero_force_counterexample :
    (0:ℚ) < 1 ∧ fallingBody.Forces = Vec3.zero ∧
    ¬ ((fallingBody.Update 1).Velocity = fallingBody.Velocity ∧
       (fallingBody.Update 1).Position =
         fallingBody.Position.add (fallingBody.Velocity.mul 1)) := by
  have hlt : (fallingBody.integPosition 1).y < -1 := by
    norm_num [fallingBody, Object.integPosition, Object.integVelocity, Vec3.add, Vec3.mul]
  refine ⟨by norm_num, rfl, fun hc => ?_⟩
  have h1 := congrArg Vec3.y hc.1
  rw [Object.Update_eq, if_pos hlt] at h1
  norm_num [fallingBody, Object.integVelocity, Vec3.add, Vec3.mul] at h1

/-- C4 (amended): for every body and every dt > 0, if the force accumulator
is zero and the straight-line step does not cross the ground plane
(position.y + velocity.y * dt >= -1), `Update(dt)` leaves the velocity
unchanged and advances the position by exactly velocity * dt. -/
theorem update_zero_force_inertial (o : Object) (dt : ℚ)
    (hdt : 0 < dt) (hF : o.Forces = Vec3.zero)
    (hg : -1 ≤ o.Position.y + o.Velocity.y * dt) :
    (o.Update dt).Velocity = o.Velocity ∧
    (o.Update dt).Position = o.Position.add (o.Velocity.mul dt) := by
  have hv := integVelocity_zero_force o dt hF
  have hp : o.integPosition dt = o.Position.add (o.Velocity.mul dt) := by
    rw [Object.integPosition, hv]
  have hy : ¬ (o.integPosition dt).y < -1 := by
    rw [hp]
    exact not_lt.mpr hg
  rw [Object.Update_no_clamp o dt hy]
  exact ⟨hv, hp⟩

/-- Witness for the amended C4 at a concrete rising body. -/
theorem update_zero_force_inertial_witness :
    ((Object.mk ⟨0, 0, 0⟩ ⟨0, 1, 0⟩ 1 ⟨0, 0, 0⟩ 1).Update 1).Velocity =
      (Object.mk ⟨0, 0, 0⟩ ⟨0, 1, 0⟩ 1 ⟨0, 0, 0⟩ 1).Velocity ∧
    ((Object.mk ⟨0, 0, 0⟩ ⟨0, 1, 0⟩ 1 ⟨0, 0, 0⟩ 1).Update 1).Position =
      (Object.mk ⟨0, 0, 0⟩ ⟨0, 1, 0⟩ 1 ⟨0, 0, 0⟩ 1).Position.add
        ((Object.mk ⟨0, 0, 0⟩ ⟨0, 1, 0⟩ 1 ⟨0, 0, 0⟩ 1).Velocity.mul 1) :=
  update_zero_force_inertial (Object.mk ⟨0, 0, 0⟩ ⟨0, 1, 0⟩ 1 ⟨0, 0, 0⟩ 1) 1
    (by norm_num) rfl (by norm_num)

/-- A body at rest at the origin with unit mass and elasticity 1. -/
def restingBody : Object := ⟨⟨0, 0, 0⟩, ⟨0, 0, 0⟩, 1, ⟨0, 0, 0⟩, 1⟩

/-- Counterexample to C5 as stated: the body has positive mass, a force
(0,-100,0) is applied for one tick with dt = 1, yet the velocity change is
not (F/mass)*dt, because the ground clamp flips the vertical velocity. -/
theorem force_response_counterexample :
    0 < restingBody.Mass ∧
    ¬ (((restingBody.AddForce ⟨0, -100, 0⟩).Update 1).Velocity =
        restingBody.Velocity.add ((Vec3.mul ⟨0, -100, 0⟩ (1 / restingBody.Mass)).mul 1)) := by
  have hlt : ((restingBody.AddForce ⟨0, -100, 0⟩).integPosition 1).y < -1 := by
    norm_num [restingBody, Object.AddForce, Object.integPosition, Object.integVelocity,
      Vec3.add, Vec3.mul]
  refine ⟨by norm_num [restingBody], fun hc => ?_⟩
  have h1 := congrArg Vec3.y hc
  rw [Object.Update_eq, if_pos hlt] at h1
  norm_num [restingBody, Object.AddForce, Object.integVelocity, Vec3.add, Vec3.mul] at h1

/-- C5 (amended): for every body with positive mass, a zero force
accumulator and a step that does not hit the ground, applying force F and
updating changes the velocity by exactly (F / mass) * dt; and the same
holds with the body moved to any other prior position q whose step also
misses the ground, giving the same final velocity — the velocity change is
independent of the prior position. -/
theorem force_response_no_collision (o : Object) (F : Vec3) (dt : ℚ) (q : Vec3)
    (hm : 0 < o.Mass) (hF : o.Forces = Vec3.zero)
    (hg : ¬ ((o.AddForce F).integPosition dt).y < -1)
    (hq : ¬ ((({ o with Position := q } : Object).AddForce F).integPosition dt).y < -1) :
    ((o.AddForce F).Update dt).Velocity = o.Velocity.add ((F.mul (1 / o.Mass)).mul dt) ∧
    ((({ o with Position := q } : Object).AddForce F).Update dt).Velocity =
      ((o.AddForce F).Update dt).Velocity := by
  have h1 : ((o.AddForce F).Update dt).Velocity = (o.AddForce F).integVelocity dt := by
    rw [Object.Update_no_clamp _ _ hg]
    rfl
  have h2 : (o.AddForce F).integVelocity dt = o.Velocity.add ((F.mul (1 / o.Mass)).mul dt) := by
    simp [Object.integVelocity, Object.AddForce, hF, Vec3.zero, Vec3.add, Vec3.mul]
  have h3 : ((({ o with Position := q } : Object).AddForce F).Update dt).Velocity =
      (({ o with Position := q } : Object).AddForce F).integVelocity dt := by
    rw [Object.Update_no_clamp _ _ hq]
    rfl
  have h4 : (({ o with Position := q } : Object).AddForce F).integVelocity dt =
      (o.AddForce F).integVelocity dt := rfl
  exact ⟨h1.trans h2, by rw [h3, h4, h1]⟩

/-- Witness for the amended C5 at a concrete body and upward force. -/
theorem force_response_no_collision_witness :
    ((restingBody.AddForce ⟨0, 1, 0⟩).Update 1).Velocity =
      restingBody.Velocity.add ((Vec3.mul ⟨0, 1, 0⟩ (1 / restingBody.Mass)).mul 1) ∧
    ((({ restingBody with Position := ⟨7, 7, 7⟩ } : Object).AddForce ⟨0, 1, 0⟩).Update 1).Velocity =
      ((restingBody.AddForce ⟨0, 1, 0⟩).Update 1).Velocity :=
  force_response_no_collision restingBody ⟨0, 1, 0⟩ 1 ⟨7, 7, 7⟩
    (by norm_num [restingBody]) rfl
    (by norm_num [restingBody, Object.AddForce, Object.integPosition, Object.integVelocity,
      Vec3.add, Vec3.mul])
    (by norm_num [restingBody, Object.AddForce, Object.integPosition, Object.integVelocity,
      Vec3.add, Vec3.mul])
